import Mathlib

set_option maxRecDepth 100000

/-!
Verification of the Pittsburgh school job scraper core
(`scraper.py`, `run_automated.py`, `scrapers/`).

The Python code is shallowly embedded: page fetching/rendering and HTML
parsing are external collaborators, so adapters are modelled as functions
over already-parsed page structures (lists of anchors, list items,
paragraphs, rendered text lines); Python dict-based job records become the
`Job` structure (absent optional fields are the empty string, matching the
code's `job.get(field, "")` reads); Python `set`s used only for membership
become lists with decidable membership; file contents and JSON parsing are
passed in as explicit arguments; exceptions become `Except`.
-/

namespace PghJobs

/-- `startsWithChars needle haystack`: `needle` is a prefix of `haystack`.
Helper for the Python substring test. -/
def startsWithChars : List Char → List Char → Bool
  | [], _ => true
  | _ :: _, [] => false
  | a :: as, b :: bs => a == b && startsWithChars as bs

/-- `isSubstr needle haystack`: `needle` occurs contiguously in `haystack`. -/
def isSubstr (needle : List Char) : List Char → Bool
  | [] => needle.isEmpty
  | c :: rest => startsWithChars needle (c :: rest) || isSubstr needle rest

/-- Python's `needle in haystack` on strings. -/
def pyIn (needle haystack : String) : Bool :=
  isSubstr needle.data haystack.data

/-- Python's `str.lower()` (ASCII range, which covers every keyword and
configured string in the repository). -/
def pyLower (s : String) : String :=
  String.mk (s.data.map Char.toLower)

/-- The canonical job record (`dict` in the Python code).  `title`,
`district`, `url`, `source` are always set by the adapters; the other
fields default to `""`, exactly the value the classifier reads for a
missing key via `job.get(field, "")`. -/
structure Job where
  title : String
  district : String
  url : String
  source : String
  position_type : String
  location : String
  category : String
  search_term : String
deriving DecidableEq, Repr

/-- Build a record that has only the four required fields, as the
listing-based adapters do. -/
def mkJob (title district url source : String) : Job :=
  ⟨title, district, url, source, "", "", "", ""⟩

/-- `SOCIAL_STUDIES_KEYWORDS` from `scraper.py`. -/
def SOCIAL_STUDIES_KEYWORDS : List String :=
  ["social studies", "history", "civics", "government", "economics",
   "geography", "political science", "world cultures", "american studies",
   "global studies", "us history", "world history", "american history",
   "ap history", "ap government", "ap economics",
   "humanities", "sociology", "psychology", "current events"]

/-- `SECONDARY_KEYWORDS` from `scraper.py`. -/
def SECONDARY_KEYWORDS : List String :=
  ["middle school", "high school", "secondary", "junior high",
   "6th grade", "7th grade", "8th grade",
   "9th grade", "10th grade", "11th grade", "12th grade",
   "grade 6", "grade 7", "grade 8",
   "grade 9", "grade 10", "grade 11", "grade 12",
   "6-12", "7-12", "6-8", "9-12"]

/-- `EXCLUDE_KEYWORDS` from `scraper.py`. -/
def EXCLUDE_KEYWORDS : List String :=
  ["elementary school", "primary school", "kindergarten", "pre-k", "prek",
   "preschool",
   "1st grade", "2nd grade", "3rd grade", "4th grade", "5th grade",
   "grade 1", "grade 2", "grade 3", "grade 4", "grade 5",
   "k-5", "k-6", "k-4", "k-3"]

/-- `exclude_types` from `is_teaching_position`. -/
def excludeTypes : List String :=
  ["aide", "paraprofessional", "assistant", "pca",
   "custodian", "maintenance", "cafeteria", "food service",
   "secretary", "clerical", "bus driver", "transportation",
   "nurse", "support staff"]

/-- `combined_text` in `is_social_studies_job`: the lowered title,
position type, location and category joined by single spaces. -/
def combinedSubjectText (j : Job) : String :=
  (pyLower j.title) ++ " " ++ (pyLower j.position_type) ++ " "
    ++ (pyLower j.location) ++ " " ++ (pyLower j.category)

/-- `is_social_studies_job` from `scraper.py` (lines 70-92). -/
def is_social_studies_job (j : Job) : Bool :=
  if SOCIAL_STUDIES_KEYWORDS.any (fun kw => pyIn kw (combinedSubjectText j)) then
    true
  else if (pyLower j.search_term) ≠ ""
      ∧ SOCIAL_STUDIES_KEYWORDS.any (fun kw => pyIn kw (pyLower j.search_term)) = true then
    true
  else
    false

/-- `combined` in `is_teaching_position`. -/
def combinedPositionText (j : Job) : String :=
  (pyLower j.title) ++ " " ++ (pyLower j.position_type)

/-- `is_teaching_position` from `scraper.py` (lines 95-115). -/
def is_teaching_position (j : Job) : Bool :=
  if excludeTypes.any (fun ex => pyIn ex (combinedPositionText j)) then
    if pyIn "teacher" (combinedPositionText j) || pyIn "instructor" (combinedPositionText j) then
      true
    else
      false
  else
    true

/-- `combined` in `is_secondary_level`: lowered title and location joined
by a space. -/
def gradeText (j : Job) : String :=
  (pyLower j.title) ++ " " ++ (pyLower j.location)

/-- `is_secondary_level` from `scraper.py` (lines 118-134). -/
def is_secondary_level (j : Job) : Bool :=
  if EXCLUDE_KEYWORDS.any (fun kw => pyIn kw (gradeText j)) then
    false
  else if SECONDARY_KEYWORDS.any (fun kw => pyIn kw (gradeText j)) then
    true
  else
    true

/-- The filtering loop of `filter_jobs` (the three `continue` guards,
appending survivors in order). -/
def filterLoop : List Job → List Job
  | [] => []
  | j :: rest =>
    if is_social_studies_job j = false then filterLoop rest
    else if is_teaching_position j = false then filterLoop rest
    else if is_secondary_level j = false then filterLoop rest
    else j :: filterLoop rest

/-- `filter_jobs` from `scraper.py` (lines 137-158); the Python default for
`social_studies_only` is `False`. -/
def filter_jobs (jobs : List Job) (social_studies_only : Bool) : List Job :=
  if social_studies_only = false then jobs else filterLoop jobs

/-- The identity key `district + "|" + title` computed inline in
`run_automated.py` (`save_current_jobs` and `get_new_jobs`). -/
def computeKey (j : Job) : String :=
  j.district ++ "|" ++ j.title

/-- `get_new_jobs` from `run_automated.py` (lines 69-78).  The Python
`previous_ids` set is modelled as a list used only through membership. -/
def get_new_jobs : List Job → List String → List Job
  | [], _ => []
  | j :: rest, previous_ids =>
    if computeKey j ∈ previous_ids then get_new_jobs rest previous_ids
    else j :: get_new_jobs rest previous_ids

/-- The dedup loop shared (in shape) by all five adapters: walk the raw
records in order keeping a `seen` set of keys; a record is appended iff its
key is fresh and the extra guard `keep` holds (`keep` is the constant
`true` except for PAEducator's `len(job['title']) > 3`).  The Python `seen`
set is modelled as a list used only through membership. -/
def dedupLoop {κ : Type} [DecidableEq κ] (key : Job → κ) (keep : Job → Bool) :
    List κ → List Job → List Job
  | _, [] => []
  | seen, j :: rest =>
    if key j ∉ seen ∧ keep j = true then j :: dedupLoop key keep (key j :: seen) rest
    else dedupLoop key keep seen rest

/-- AppliTrack dedup key: `job['title'].lower()`. -/
def keyTitleLower (j : Job) : String := (pyLower j.title)

/-- PowerSchool dedup key: `job['url']`. -/
def keyUrl (j : Job) : String := j.url

/-- Other-adapter dedup key: `(job['title'], job['url'])`. -/
def keyTitleUrl (j : Job) : String × String := (j.title, j.url)

/-- Guard used by the adapters whose dedup has no extra condition. -/
def keepAll (_ : Job) : Bool := true

/-- PAEducator's extra dedup guard `len(job['title']) > 3`. -/
def keepTitleLong (j : Job) : Bool := decide (3 < j.title.length)

/-- Dedup pass of `scrape_applitrack` (`applitrack.py` lines 104-113). -/
def dedup_applitrack (jobs : List Job) : List Job :=
  dedupLoop keyTitleLower keepAll [] jobs

/-- Dedup pass of `scrape_schoolspring` (`schoolspring.py` lines 121-128). -/
def dedup_schoolspring (jobs : List Job) : List Job :=
  dedupLoop keyTitleLower keepAll [] jobs

/-- Dedup pass of `scrape_paeducator` (`paeducator.py` lines 98-105). -/
def dedup_paeducator (jobs : List Job) : List Job :=
  dedupLoop keyTitleLower keepTitleLong [] jobs

/-- Dedup pass of `scrape_powerschool` (`powerschool.py` lines 75-81). -/
def dedup_powerschool (jobs : List Job) : List Job :=
  dedupLoop keyUrl keepAll [] jobs

/-- Dedup pass of `scrape_other` (`other.py` lines 112-119). -/
def dedup_other (jobs : List Job) : List Job :=
  dedupLoop keyTitleUrl keepAll [] jobs

/-- First-occurrence-wins dedup as the spec words it: keep a record iff its
guard holds, and drop every later record with the same key. -/
def firstOccurrence {κ : Type} [DecidableEq κ] (key : Job → κ) (keep : Job → Bool) :
    List Job → List Job
  | [] => []
  | j :: rest =>
    if keep j = true then
      j :: firstOccurrence key keep (rest.filter (fun x => decide (key x ≠ key j)))
    else firstOccurrence key keep rest
termination_by l => l.length
decreasing_by
  · exact Nat.lt_succ_of_le (List.length_filter_le _ _)
  · exact Nat.lt_succ_self _

/-- A parsed `<a href=...>` element: `href` as written, `text` the
whitespace-stripped link text (the HTML-to-text step is external). -/
structure Anchor where
  href : String
  text : String
deriving DecidableEq, Repr

/-- A parsed `<li>` element for the Other adapter: its stripped text and
its first inner anchor, if any. -/
structure LItem where
  text : String
  link : Option Anchor
deriving DecidableEq, Repr

/-- A paragraph-like element (`p`/`li`/`h2`/`h3`/`h4`) inside a content
container, for the Other adapter's third strategy. -/
structure Para where
  text : String
  link : Option Anchor
deriving DecidableEq, Repr

/-- Parsed page content handed to the Other adapter: all anchors with an
`href`, all list items, and the paragraphs of content containers in
document order. -/
structure OtherPage where
  anchors : List Anchor
  listItems : List LItem
  contentParas : List Para
deriving Repr

/-- Split a character list at the first occurrence of `sep`, returning the
part before and the part after it; `none` if `sep` does not occur.
Helper for the `urljoin` model. -/
def isSubstrSplit (sep : List Char) : List Char → Option (List Char × List Char)
  | [] => none
  | c :: rest =>
    if startsWithChars sep (c :: rest) then some ([], (c :: rest).drop sep.length)
    else
      match isSubstrSplit sep rest with
      | some pr => some (c :: pr.1, pr.2)
      | none => none

/-- Model of `urllib.parse.urljoin` (Python stdlib, external to the repo)
for the cases the adapters exercise: an empty href returns the base; an
href with a scheme is already absolute; a `//` href keeps the base scheme;
a `/` href keeps scheme and authority; otherwise the href replaces the
last segment of the base path. -/
def urljoin (base href : String) : String :=
  if href = "" then base
  else if pyIn "://" href then href
  else
    match isSubstrSplit "://".data base.data with
    | none => href
    | some sr =>
      let scheme := sr.1
      let authority := sr.2.takeWhile (fun c => c != '/')
      let path := sr.2.dropWhile (fun c => c != '/')
      if startsWithChars "//".data href.data then
        String.mk (scheme ++ (':' :: href.data))
      else if startsWithChars "/".data href.data then
        String.mk (scheme ++ "://".data ++ authority ++ href.data)
      else
        let dir := (path.reverse.dropWhile (fun c => c != '/')).reverse
        let dir2 := if dir.isEmpty then "/".data else dir
        String.mk (scheme ++ "://".data ++ authority ++ dir2 ++ href.data)

/-- `job_keywords` from `scrape_other`. -/
def job_keywords : List String :=
  ["job", "position", "opening", "employment", "career", "vacancy",
   "hiring", "posting", "opportunity", "apply"]

/-- `job_title_patterns` from `scrape_other`; each pattern is a literal
word, so `re.search(p, text, re.I)` is a substring test on lowered text. -/
def job_title_patterns : List String :=
  ["teacher", "principal", "secretary", "aide", "coach",
   "custodian", "driver", "nurse", "counselor", "specialist",
   "director", "coordinator", "assistant", "paraprofessional",
   "substitute", "tutor", "librarian", "technician"]

/-- Navigation texts skipped by `scrape_other` strategy 1. -/
def navTexts : List String := ["home", "about", "contact", "login", "search"]

/-- Strategy 1 of `scrape_other` (`other.py` lines 22-59): anchors whose
href contains a job keyword or whose text matches a job-title pattern.
(The computed `is_job_text` flag is unused in the source's condition and
is therefore omitted.) -/
def other_strategy1 (url district : String) (anchors : List Anchor) : List Job :=
  anchors.filterMap (fun a =>
    if (pyLower a.text).length < 3 ∨ 200 < (pyLower a.text).length then none
    else if navTexts.contains (pyLower a.text) then none
    else
      if job_keywords.any (fun kw => pyIn kw (pyLower a.href))
          || job_title_patterns.any (fun p => pyIn p (pyLower a.text)) then
        if a.text ≠ "" ∧ 2 < a.text.length then
          some (mkJob a.text district (urljoin url a.href) "District Website")
        else none
      else none)

/-- Strategy 2 of `scrape_other` (`other.py` lines 61-83): list items whose
text matches a job-title pattern. -/
def other_strategy2 (url district : String) (items : List LItem) : List Job :=
  items.filterMap (fun li =>
    if job_title_patterns.any (fun p => pyIn p (pyLower li.text)) then
      match li.link with
      | some a =>
        let title := if a.text ≠ "" then a.text else String.mk (li.text.data.take 100)
        some (mkJob title district (urljoin url a.href) "District Website")
      | none =>
        some (mkJob (String.mk (li.text.data.take 100)) district url "District Website")
    else none)

/-- Strategy 3 of `scrape_other` (`other.py` lines 85-105): job-title
pattern matches in paragraphs of content containers. -/
def other_strategy3 (url district : String) (paras : List Para) : List Job :=
  paras.filterMap (fun p =>
    if job_title_patterns.any (fun pat => pyIn pat (pyLower p.text)) then
      match p.link with
      | some a => some (mkJob (String.mk (p.text.data.take 100)) district (urljoin url a.href) "District Website")
      | none => some (mkJob (String.mk (p.text.data.take 100)) district url "District Website")
    else none)

/-- Strategy selection of `scrape_other`: later strategies run only while
`jobs` is still empty. -/
def other_pick (url district : String) (page : OtherPage) : List Job :=
  if (other_strategy1 url district page.anchors).isEmpty then
    if (other_strategy2 url district page.listItems).isEmpty then
      other_strategy3 url district page.contentParas
    else other_strategy2 url district page.listItems
  else other_strategy1 url district page.anchors

/-- `scrape_other` from `other.py`, over already-fetched parsed content. -/
def scrape_other (url district : String) (page : OtherPage) : List Job :=
  dedup_other (other_pick url district page)

/-- One portal of a `Multiple` district configuration; `none` fields model
missing dict keys (access raises `KeyError`). -/
structure Portal where
  ptype : Option String
  purl : Option String

/-- One district configuration entry (`config.json` schema); `none` fields
model missing dict keys. -/
structure School where
  name : Option String
  stype : Option String
  url : Option String
  urls : Option (List Portal)
  paeducator_filter : Option String

/-- The whole configuration; `config['schools']` raises when missing. -/
structure Config where
  schools : Option (List School)

/-- The five adapter functions as the orchestrator sees them.  Each Python
adapter wraps its body in a catch-all `except`, so each is a total
function of the fetched/rendered input (modelled as already applied). -/
structure Adapters where
  applitrack : String → String → List Job
  powerschool : String → String → List Job
  paeducator : String → String → String → List Job
  schoolspring : String → String → List Job
  other : String → String → List Job

/-- `scrape_district` from `scraper.py` (lines 167-200).  Dict accesses
become `Except.error "KeyError: ..."`; the function has no handler of its
own, exactly like the source. -/
def scrape_district (A : Adapters) (school : School) : Except String (List Job) :=
  match school.name with
  | none => Except.error "KeyError: name"
  | some name =>
    match school.stype with
    | none => Except.error "KeyError: type"
    | some site_type =>
      if site_type = "AppliTrack" then
        match school.url with
        | none => Except.error "KeyError: url"
        | some url => Except.ok (A.applitrack url name)
      else if site_type = "PowerSchool" then
        match school.url with
        | none => Except.error "KeyError: url"
        | some url => Except.ok (A.powerschool url name)
      else if site_type = "PAEducator" then
        match school.url with
        | none => Except.error "KeyError: url"
        | some url => Except.ok (A.paeducator url name (school.paeducator_filter.getD name))
      else if site_type = "SchoolSpring" then
        match school.url with
        | none => Except.error "KeyError: url"
        | some url => Except.ok (A.schoolspring url name)
      else if site_type = "Other" then
        match school.url with
        | none => Except.error "KeyError: url"
        | some url => Except.ok (A.other url name)
      else if site_type = "Multiple" then
        List.foldlM
          (fun acc portal =>
            match portal.ptype with
            | none => Except.error "KeyError: type"
            | some ptype =>
              match portal.purl with
              | none => Except.error "KeyError: url"
              | some purl =>
                if ptype = "AppliTrack" then Except.ok (acc ++ A.applitrack purl name)
                else if ptype = "PowerSchool" then Except.ok (acc ++ A.powerschool purl name)
                else Except.ok acc)
          [] (school.urls.getD [])
      else Except.ok []

/-- `scrape_all_districts` from `scraper.py` (lines 203-218): reads
`config['schools']` and each `school['name']`, concatenates per-district
results in order, and installs no exception handler of its own. -/
def scrape_all_districts (A : Adapters) (config : Config) : Except String (List Job) :=
  match config.schools with
  | none => Except.error "KeyError: schools"
  | some schools =>
    List.foldlM
      (fun acc school =>
        match school.name with
        | none => Except.error "KeyError: name"
        | some _ =>
          match scrape_district A school with
          | Except.error e => Except.error e
          | Except.ok jobs => Except.ok (acc ++ jobs))
      [] schools

/-- A parsed JSON value (the repo reads JSON via the stdlib `json`
module, external to the core). -/
inductive PyJson where
  | null : PyJson
  | boolVal : Bool → PyJson
  | numVal : Int → PyJson
  | strVal : String → PyJson
  | arrVal : List PyJson → PyJson
  | objVal : List (String × PyJson) → PyJson

/-- `dict.get` on a parsed JSON object (first binding wins; Python dicts
have unique keys). -/
def lookupField : List (String × PyJson) → String → Option PyJson
  | [], _ => none
  | (k, v) :: rest, key => if k = key then some v else lookupField rest key

/-- The string elements of a JSON array.  Non-string elements are dropped:
`set(...)` keeps them, but a non-string member can never equal a computed
`district + "|" + title` key, so membership of identity keys is
unchanged. -/
def stringElems : List PyJson → List String
  | [] => []
  | PyJson.strVal s :: rest => s :: stringElems rest
  | _ :: rest => stringElems rest

/-- `load_previous_jobs` from `run_automated.py` (lines 34-46).
`cacheFile` is the cache file's content (`none` when the file does not
exist); `parseJson` is the external `json.load`.  The bare `except:`
around the body means any parse failure or shape mismatch yields the
empty set, modelled as the empty list (the set is used only through
membership). -/
def load_previous_jobs (cacheFile : Option String)
    (parseJson : String → Except String PyJson) : List String :=
  match cacheFile with
  | none => []
  | some content =>
    match parseJson content with
    | Except.error _ => []
    | Except.ok (PyJson.objVal fields) =>
      match lookupField fields "job_ids" with
      | some (PyJson.arrVal elems) => stringElems elems
      | some _ => []
      | none => []
    | Except.ok _ => []

/-- The subject predicate exactly as claim C5 words its second disjunct:
the record's `search_term` must itself be a subject keyword
(case-insensitively), rather than merely contain one. -/
def claim5_subject_rhs (j : Job) : Bool :=
  SOCIAL_STUDIES_KEYWORDS.any (fun kw => pyIn kw (combinedSubjectText j))
    || SOCIAL_STUDIES_KEYWORDS.contains (pyLower j.search_term)

/-- A record found only through a search whose term strictly contains a
subject keyword. -/
def jobC5 : Job := ⟨"", "D", "u", "X", "", "", "", "the history of art"⟩

/-- The claim C4 scenario page: one anchor, no list items, no content
paragraphs. -/
def pageC4 : OtherPage :=
  ⟨[⟨"/postings/42", "High School History Teacher"⟩], [], []⟩

/-- The record the Other adapter actually produces for `pageC4`. -/
def jobC4 : Job :=
  mkJob "High School History Teacher" "Example SD" "http://x/postings/42" "District Website"

/-- Two PowerSchool records sharing a url but not a title. -/
def jobCEa : Job := mkJob "Math Teacher" "D" "u1" "PowerSchool"

/-- Second record for the PowerSchool dedup counterexample. -/
def jobCEb : Job := mkJob "Science Teacher" "D" "u1" "PowerSchool"

/-- Adapters that all yield nothing except the Other adapter. -/
def jobBW : Job := mkJob "Civics Teacher" "Beta SD" "http://b/post/1" "District Website"

/-- Adapter set whose Other adapter finds one job. -/
def adaptersOne : Adapters :=
  ⟨fun _ _ => [], fun _ _ => [], fun _ _ _ => [], fun _ _ => [], fun _ _ => [jobBW]⟩

/-- An AppliTrack district whose configuration lacks the `url` key. -/
def schoolNoUrl : School := ⟨some "Alpha SD", some "AppliTrack", none, none, none⟩

/-- A well-formed Other district. -/
def schoolOk : School := ⟨some "Beta SD", some "Other", some "http://b/jobs", none, none⟩

/-- Config whose first district raises and whose second has a job. -/
def cfgCE : Config := ⟨some [schoolNoUrl, schoolOk]⟩

/-- One-district config for the C3 witness. -/
def cfgW : Config := ⟨some [schoolOk]⟩

/-- A job with grade-unspecified title, for the C6 witness. -/
def jobGradeW : Job := mkJob "Social Studies Teacher" "D" "u" "X"

/-- The dedup loop with a pre-seeded `seen` set equals first-occurrence
dedup of the input with the already-seen keys filtered away. -/
lemma dedupLoop_eq_aux {κ : Type} [DecidableEq κ] (key : Job → κ) (keep : Job → Bool) :
    ∀ (jobs : List Job) (seen : List κ),
      dedupLoop key keep seen jobs
        = firstOccurrence key keep (jobs.filter (fun x => decide (key x ∉ seen))) := by
  intro jobs
  induction jobs with
  | nil => intro seen; simp [dedupLoop, firstOccurrence]
  | cons j rest ih =>
    intro seen
    by_cases hseen : key j ∈ seen
    · have hc : ¬ (key j ∉ seen ∧ keep j = true) := fun h => h.1 hseen
      rw [dedupLoop, if_neg hc]
      have hfil : (j :: rest).filter (fun x => decide (key x ∉ seen))
          = rest.filter (fun x => decide (key x ∉ seen)) := by
        simp [List.filter_cons, hseen]
      rw [hfil, ih]
    · have hfil : (j :: rest).filter (fun x => decide (key x ∉ seen))
          = j :: rest.filter (fun x => decide (key x ∉ seen)) := by
        simp [List.filter_cons, hseen]
      by_cases hkeep : keep j = true
      · have hcomm :
            (rest.filter (fun x => decide (key x ∉ seen))).filter
                (fun x => decide (key x ≠ key j))
              = rest.filter (fun x => decide (key x ∉ key j :: seen)) := by
          rw [List.filter_filter]
          apply List.filter_congr
          intro x _
          by_cases h1 : key x = key j <;> by_cases h2 : key x ∈ seen <;>
            simp [h1, h2, List.mem_cons]
        rw [dedupLoop, if_pos ⟨hseen, hkeep⟩, hfil, firstOccurrence, if_pos hkeep,
          ih (key j :: seen), hcomm]
      · rw [dedupLoop, if_neg (fun h => hkeep h.2), hfil, firstOccurrence, if_neg hkeep, ih]

/-- Each adapter's dedup loop, started with an empty `seen` set, is
first-occurrence dedup. -/
lemma dedupLoop_eq_firstOccurrence {κ : Type} [DecidableEq κ]
    (key : Job → κ) (keep : Job → Bool) (jobs : List Job) :
    dedupLoop key keep [] jobs = firstOccurrence key keep jobs := by
  rw [dedupLoop_eq_aux]
  congr 1
  have : ∀ x ∈ jobs, (decide (key x ∉ ([] : List κ))) = (fun _ : Job => true) x := by
    intro x _; simp
  rw [List.filter_congr this, List.filter_true]

/-- First-occurrence dedup returns an order-preserving subsequence. -/
lemma firstOccurrence_sublist {κ : Type} [DecidableEq κ] (key : Job → κ) (keep : Job → Bool) :
    ∀ (jobs : List Job), List.Sublist (firstOccurrence key keep jobs) jobs := by
  have main : ∀ (n : Nat) (jobs : List Job), jobs.length ≤ n →
      List.Sublist (firstOccurrence key keep jobs) jobs := by
    intro n
    induction n with
    | zero =>
      intro jobs h
      have : jobs = [] := List.eq_nil_of_length_eq_zero (Nat.le_zero.mp h)
      subst this
      simp [firstOccurrence]
    | succ n ih =>
      intro jobs h
      match jobs with
      | [] => simp [firstOccurrence]
      | j :: rest =>
        have hrest : rest.length ≤ n := Nat.lt_succ_iff.mp (Nat.lt_of_lt_of_le (Nat.lt_succ_of_le (Nat.le_refl _)) (by simpa using h))
        rw [firstOccurrence]
        by_cases hk : keep j = true
        · rw [if_pos hk]
          refine List.Sublist.cons₂ j ?_
          have hlen : (rest.filter (fun x => decide (key x ≠ key j))).length ≤ n :=
            Nat.le_trans (List.length_filter_le _ _) hrest
          exact (ih _ hlen).trans (List.filter_sublist rest)
        · rw [if_neg hk]
          exact (ih rest hrest).cons j
  intro jobs
  exact main jobs.length jobs (Nat.le_refl _)

/-- No two records returned by first-occurrence dedup share a key. -/
lemma firstOccurrence_pairwise {κ : Type} [DecidableEq κ] (key : Job → κ) (keep : Job → Bool) :
    ∀ (jobs : List Job),
      (firstOccurrence key keep jobs).Pairwise (fun a b => key a ≠ key b) := by
  have main : ∀ (n : Nat) (jobs : List Job), jobs.length ≤ n →
      (firstOccurrence key keep jobs).Pairwise (fun a b => key a ≠ key b) := by
    intro n
    induction n with
    | zero =>
      intro jobs h
      have : jobs = [] := List.eq_nil_of_length_eq_zero (Nat.le_zero.mp h)
      subst this
      simp [firstOccurrence]
    | succ n ih =>
      intro jobs h
      match jobs with
      | [] => simp [firstOccurrence]
      | j :: rest =>
        have hrest : rest.length ≤ n := by
          have := h
          simp only [List.length_cons] at this
          omega
        rw [firstOccurrence]
        by_cases hk : keep j = true
        · rw [if_pos hk]
          rw [List.pairwise_cons]
          constructor
          · intro b hb
            have hbmem : b ∈ rest.filter (fun x => decide (key x ≠ key j)) :=
              (firstOccurrence_sublist key keep _).subset hb
            have := (List.mem_filter.mp hbmem).2
            simp only [decide_eq_true_eq] at this
            exact fun hEq => this hEq.symm
          · have hlen : (rest.filter (fun x => decide (key x ≠ key j))).length ≤ n :=
              Nat.le_trans (List.length_filter_le _ _) hrest
            exact ih _ hlen
        · rw [if_neg hk]
          exact ih rest hrest
  intro jobs
  exact main jobs.length jobs (Nat.le_refl _)

/-- A search string containing some subject keyword is nonempty. -/
lemma subject_any_ne_empty (s : String)
    (h : SOCIAL_STUDIES_KEYWORDS.any (fun kw => pyIn kw s) = true) : s ≠ "" := by
  intro he
  rw [he] at h
  exact absurd h (by decide)

/-- A successful `scrape_district` implies the `name` key was present. -/
lemma scrape_district_ok_name (A : Adapters) (s : School) (l : List Job)
    (h : scrape_district A s = Except.ok l) : ∃ n, s.name = some n := by
  match hs : s.name with
  | none => rw [scrape_district, hs] at h; cases h
  | some n => exact ⟨n, rfl⟩

/-- C1: for every list of current job records and every set of previous
identity keys, `get_new_jobs` returns exactly those records whose key
`district + "|" + title` is not among the previous keys, in the input's
original order. -/
theorem c1_get_new_jobs_filter (current : List Job) (previous_ids : List String) :
    get_new_jobs current previous_ids
      = current.filter (fun j => decide (computeKey j ∉ previous_ids)) := by
  induction current with
  | nil => rfl
  | cons j rest ih =>
    by_cases h : computeKey j ∈ previous_ids <;>
      simp [get_new_jobs, h, ih, List.filter_cons]

/-- C2: with `social_studies_only = true`, `filter_jobs` is the
order-preserving filter by the conjunction of the three classifier
predicates. -/
theorem c2_filter_jobs_conjunction (jobs : List Job) :
    filter_jobs jobs true
      = jobs.filter (fun j =>
          is_social_studies_job j && is_teaching_position j && is_secondary_level j) := by
  rw [filter_jobs]
  simp only [Bool.true_eq_false, if_false]
  induction jobs with
  | nil => rfl
  | cons j rest ih =>
    cases h1 : is_social_studies_job j <;> cases h2 : is_teaching_position j <;>
      cases h3 : is_secondary_level j <;>
      simp [filterLoop, h1, h2, h3, ih, List.filter_cons]

/-- C10: with `social_studies_only = false` (the source's default),
`filter_jobs` returns its input unchanged. -/
theorem c10_filter_default_identity (jobs : List Job) :
    filter_jobs jobs false = jobs := rfl

/-- C5 counterexample: a record whose `search_term` strictly contains the
subject keyword `history` without being a keyword itself is accepted by
`is_social_studies_job`, refuting the claim's characterisation that the
`search_term` must itself be a subject keyword. -/
theorem c5_counterexample :
    is_social_studies_job jobC5 = true ∧ claim5_subject_rhs jobC5 = false := by
  constructor
  · decide
  · decide

/-- C5 (amended): `is_social_studies_job` is true iff some subject keyword
is a substring of the space-joined lowered title, position type, location
and category, or some subject keyword is a substring of the lowered
`search_term`. -/
theorem c5_subject_amended (j : Job) :
    is_social_studies_job j
      = (SOCIAL_STUDIES_KEYWORDS.any (fun kw => pyIn kw (combinedSubjectText j))
          || SOCIAL_STUDIES_KEYWORDS.any (fun kw => pyIn kw (pyLower j.search_term))) := by
  cases hA : SOCIAL_STUDIES_KEYWORDS.any (fun kw => pyIn kw (combinedSubjectText j))
  · cases hB : SOCIAL_STUDIES_KEYWORDS.any (fun kw => pyIn kw (pyLower j.search_term))
    · simp [is_social_studies_job, hA, hB]
    · have hne : (pyLower j.search_term) ≠ "" := subject_any_ne_empty _ hB
      simp [is_social_studies_job, hA, hB, hne]
  · simp [is_social_studies_job, hA]

/-- C6: `is_secondary_level` is false exactly when an elementary exclusion
keyword occurs in the lowered title-and-location text, and when neither an
exclusion nor a secondary keyword occurs it is true (unknown grade level
passes). -/
theorem c6_grade_level (j : Job) :
    (is_secondary_level j = false
        ↔ EXCLUDE_KEYWORDS.any (fun kw => pyIn kw (gradeText j)) = true)
    ∧ (EXCLUDE_KEYWORDS.any (fun kw => pyIn kw (gradeText j)) = false →
        SECONDARY_KEYWORDS.any (fun kw => pyIn kw (gradeText j)) = false →
        is_secondary_level j = true) := by
  cases hE : EXCLUDE_KEYWORDS.any (fun kw => pyIn kw (gradeText j)) <;>
    cases hS : SECONDARY_KEYWORDS.any (fun kw => pyIn kw (gradeText j)) <;>
    simp [is_secondary_level, hE, hS]

/-- C6 witness: a generic record titled `Social Studies Teacher` has no
grade marker of either kind and passes the grade-level predicate. -/
theorem c6_witness : is_secondary_level jobGradeW = true :=
  (c6_grade_level jobGradeW).2 (by decide) (by decide)

/-- C9: `load_previous_jobs` yields the empty key set both when the cache
file is absent and when its contents fail to parse; in the embedding it is
a total function, mirroring the bare `except:` that swallows every
error. -/
theorem c9_load_previous_jobs :
    (∀ parseJson, load_previous_jobs none parseJson = [])
    ∧ (∀ parseJson s e, parseJson s = Except.error e →
        load_previous_jobs (some s) parseJson = []) := by
  constructor
  · intro parseJson; rfl
  · intro parseJson s e h
    simp [load_previous_jobs, h]

/-- C9 witness: a missing cache file and an unparseable cache file both
yield the empty key set. -/
theorem c9_witness :
    load_previous_jobs (some "not json") (fun _ => Except.error "Expecting value") = []
    ∧ load_previous_jobs none (fun _ => Except.error "Expecting value") = [] :=
  ⟨c9_load_previous_jobs.2 _ "not json" "Expecting value" rfl,
   c9_load_previous_jobs.1 _⟩

/-- C3 counterexample: a district whose configuration lacks the `url` key
raises inside `scrape_district`; `scrape_all_districts` does not catch it,
so the whole run aborts and the second, healthy district contributes
nothing — refuting the claim that per-district exceptions are caught at
the orchestrator boundary. -/
theorem c3_counterexample :
    scrape_district adaptersOne schoolNoUrl = Except.error "KeyError: url"
    ∧ scrape_district adaptersOne schoolOk = Except.ok [jobBW]
    ∧ scrape_all_districts adaptersOne cfgCE = Except.error "KeyError: url" := by
  refine ⟨rfl, rfl, rfl⟩

/-- C3 (amended): exceptions during fetching and parsing are caught inside
each adapter, which then contributes an empty or partial list, so the
adapters are total functions; whenever every per-district scrape succeeds,
`scrape_all_districts` concatenates the districts' records in
configuration order and the run completes.  The orchestrator itself
installs no handler, so an exception escaping `scrape_district` (such as a
missing configuration key) aborts the run. -/
theorem c3_orchestrator_amended (A : Adapters) (config : Config)
    (schools : List School) (f : School → List Job)
    (hs : config.schools = some schools)
    (hok : ∀ s ∈ schools, scrape_district A s = Except.ok (f s)) :
    scrape_all_districts A config = Except.ok (List.flatten (schools.map f)) := by
  rw [scrape_all_districts, hs]
  suffices main : ∀ (ss : List School) (acc : List Job),
      (∀ s ∈ ss, scrape_district A s = Except.ok (f s)) →
      List.foldlM
        (fun acc school =>
          match school.name with
          | none => Except.error "KeyError: name"
          | some _ =>
            match scrape_district A school with
            | Except.error e => Except.error e
            | Except.ok jobs => Except.ok (acc ++ jobs))
        acc ss = Except.ok (acc ++ List.flatten (ss.map f)) by
    simpa using main schools [] hok
  intro ss
  induction ss with
  | nil => intro acc _; simp [List.foldlM]; rfl
  | cons s rest ih =>
    intro acc hall
    have hsOk : scrape_district A s = Except.ok (f s) := hall s (List.mem_cons_self s rest)
    obtain ⟨n, hn⟩ := scrape_district_ok_name A s (f s) hsOk
    rw [List.foldlM]
    simp only [hn, hsOk]
    show List.foldlM _ (acc ++ f s) rest
        = Except.ok (acc ++ (List.map f (s :: rest)).flatten)
    rw [ih (acc ++ f s) (fun x hx => hall x (List.mem_cons_of_mem s hx))]
    simp [List.append_assoc]

/-- C3 witness: a single healthy district runs to completion through the
orchestrator. -/
theorem c3_witness : scrape_all_districts adaptersOne cfgW = Except.ok [jobBW] := by
  have h := c3_orchestrator_amended adaptersOne cfgW [schoolOk] (fun _ => [jobBW]) rfl
    (by intro s hs; rw [List.mem_singleton] at hs; subst hs; rfl)
  simpa using h

/-- C4 counterexample: on the claim's scenario page the Other adapter
produces the claimed title, district and resolved url, but its `source`
field is `District Website`, not `Other`. -/
theorem c4_counterexample :
    scrape_other "http://x/jobs" "Example SD" pageC4 = [jobC4]
    ∧ jobC4.source ≠ "Other" := by
  refine ⟨by decide, by decide⟩

/-- C4 (amended): the scenario yields exactly one record with title
`High School History Teacher`, district `Example SD`, url
`http://x/postings/42` and source `District Website`, and that record
passes all three classifier predicates. -/
theorem c4_other_scenario_amended :
    scrape_other "http://x/jobs" "Example SD" pageC4 = [jobC4]
    ∧ is_social_studies_job jobC4 = true
    ∧ is_teaching_position jobC4 = true
    ∧ is_secondary_level jobC4 = true := by
  refine ⟨by decide, by decide, by decide, by decide⟩

/-- C8 counterexample: PowerSchool dedups by url alone, so a second record
with the same url but a fresh `(title, url)` pair is dropped — refuting
the claimed `(title, url)` dedup key for listing-based adapters. -/
theorem c8_counterexample :
    dedup_powerschool [jobCEa, jobCEb] = [jobCEa]
    ∧ keyTitleUrl jobCEa ≠ keyTitleUrl jobCEb := by
  refine ⟨by decide, by decide⟩

/-- C8 (amended): each adapter's dedup pass keeps the first occurrence of
each dedup key in order of appearance — the key being the lower-cased
title for AppliTrack and SchoolSpring, the lower-cased title with an extra
title-length-above-3 guard for PAEducator, the url for PowerSchool, and
the `(title, url)` pair for the Other adapter — and first-occurrence dedup
always returns an order-preserving subsequence in which no two records
share a dedup key. -/
theorem c8_dedup_first_wins_amended :
    (∀ jobs, dedup_applitrack jobs = firstOccurrence keyTitleLower keepAll jobs)
    ∧ (∀ jobs, dedup_schoolspring jobs = firstOccurrence keyTitleLower keepAll jobs)
    ∧ (∀ jobs, dedup_paeducator jobs = firstOccurrence keyTitleLower keepTitleLong jobs)
    ∧ (∀ jobs, dedup_powerschool jobs = firstOccurrence keyUrl keepAll jobs)
    ∧ (∀ jobs, dedup_other jobs = firstOccurrence keyTitleUrl keepAll jobs)
    ∧ (∀ (κ : Type) [DecidableEq κ] (key : Job → κ) (keep : Job → Bool) (jobs : List Job),
        List.Sublist (firstOccurrence key keep jobs) jobs
        ∧ (firstOccurrence key keep jobs).Pairwise (fun a b => key a ≠ key b)) :=
  ⟨fun jobs => dedupLoop_eq_firstOccurrence keyTitleLower keepAll jobs,
   fun jobs => dedupLoop_eq_firstOccurrence keyTitleLower keepAll jobs,
   fun jobs => dedupLoop_eq_firstOccurrence keyTitleLower keepTitleLong jobs,
   fun jobs => dedupLoop_eq_firstOccurrence keyUrl keepAll jobs,
   fun jobs => dedupLoop_eq_firstOccurrence keyTitleUrl keepAll jobs,
   fun _ _ key keep jobs =>
     ⟨firstOccurrence_sublist key keep jobs, firstOccurrence_pairwise key keep jobs⟩⟩

end PghJobs
